import Mathlib

/-!
Verification of the VantaEther media-capture toolkit.

Shallow embedding of the parts of the code base that the checked claims
concern:

* `vantaether/utils/file_manager.py` — `FileManager.sanitize_filename`,
  `FileManager.detect_files`
* `vantaether/core/downloader.py` — `Downloader._sanitize_filename`,
  `Downloader._detect_files`, `Downloader.download_stream`
* `vantaether/server/app.py` — `CaptureManager` (`_prune_list`,
  `add_item`, `get_snapshot`) and the `POST /snipe` route
* `vantaether/utils/cookies.py` — `create_cookie_file`

Python strings are modelled as `String` / `List Char`; dictionaries coming
from JSON as association lists `List (String × String)`; the file system as
a list of `(name, size)` records.  Console printing, locking, timestamps and
actual disk I/O are not modelled; everything else follows the source line by
line.
-/

open scoped List

namespace VantaEther

/-! ### Character / string helpers (models of the Python built-ins used) -/

/-- The exact set of characters Python's `str.strip()` removes: the
characters for which `str.isspace()` holds in CPython 3.x (ASCII
whitespace, the information separators, NEL, NBSP, Ogham space mark, the
U+2000–U+200A spaces, the line/paragraph separators, narrow no-break
space, medium mathematical space and ideographic space). -/
def pySpaceChars : List Char :=
  ['\t', '\n', '\x0b', '\x0c', '\r', '\x1c', '\x1d', '\x1e', '\x1f', ' ',
   '\u0085', '\u00a0', '\u1680', '\u2000', '\u2001', '\u2002', '\u2003',
   '\u2004', '\u2005', '\u2006', '\u2007', '\u2008', '\u2009', '\u200a',
   '\u2028', '\u2029', '\u202f', '\u205f', '\u3000']

/-- Whitespace in the sense of Python's `str.strip()` / `str.isspace()`. -/
def isPySpace (c : Char) : Bool := pySpaceChars.contains c

/-- The characters removed by the sanitizers' regex `[<>:"/\\|?*]`. -/
def badChar (c : Char) : Bool :=
  c == '<' || c == '>' || c == ':' || c == '"' || c == '/' || c == '\\' ||
  c == '|' || c == '?' || c == '*'

/-- Python `str.strip()`: drop leading and trailing whitespace. -/
def pyStrip (l : List Char) : List Char :=
  ((l.dropWhile isPySpace).reverse.dropWhile isPySpace).reverse

/-! ### `FileManager.sanitize_filename` (utils/file_manager.py lines 30-42)

```python
cleaned = re.sub(r'[<>:"/\\|?*]', "", name).strip()
return cleaned[:50]
``` -/

namespace FileManager

def sanitize_filename (name : String) : String :=
  let cleaned : String := String.mk (pyStrip (name.data.filter (fun c => !badChar c)))
  String.mk (cleaned.data.take 50)

end FileManager

/-! ### `Downloader._sanitize_filename` (core/downloader.py lines 93-103)

```python
return re.sub(r'[<>:"/\\|?*]', "", name).strip()[:50]
``` -/

namespace Downloader

def sanitize_filename (name : String) : String :=
  String.mk ((pyStrip (name.data.filter (fun c => !badChar c))).take 50)

end Downloader

/-! #### Lemmas about the sanitizers -/

theorem pyStrip_sublist (l : List Char) : pyStrip l <+ l := by
  unfold pyStrip
  have h1 : (l.dropWhile isPySpace) <+ l := List.dropWhile_sublist _
  have h2 : (l.dropWhile isPySpace).reverse.dropWhile isPySpace <+
      (l.dropWhile isPySpace).reverse := List.dropWhile_sublist _
  have h3 : ((l.dropWhile isPySpace).reverse.dropWhile isPySpace).reverse <+
      l.dropWhile isPySpace := by simpa using h2.reverse
  exact h3.trans h1

theorem mem_sanitize_mem_filter {c : Char} {s : String}
    (h : c ∈ (Downloader.sanitize_filename s).data) :
    c ∈ s.data.filter (fun c => !badChar c) := by
  unfold Downloader.sanitize_filename at h
  exact (pyStrip_sublist _).mem (List.mem_of_mem_take h)

theorem sanitize_no_badChar (s : String) :
    ∀ c ∈ (Downloader.sanitize_filename s).data, badChar c = false := by
  intro c hc
  have := (List.mem_filter.mp (mem_sanitize_mem_filter hc)).2
  simpa using this

theorem sanitize_length_le (s : String) :
    (Downloader.sanitize_filename s).length ≤ 50 := by
  unfold Downloader.sanitize_filename
  simp only [String.length]
  calc ((pyStrip (s.data.filter fun c => !badChar c)).take 50).length
      = min 50 (pyStrip (s.data.filter fun c => !badChar c)).length :=
        List.length_take _ _
    _ ≤ 50 := Nat.min_le_left _ _

/-- If a list's first and last characters are not whitespace, `pyStrip`
leaves it unchanged. -/
theorem pyStrip_eq_self {l : List Char}
    (h1 : l.head?.all (fun c => !isPySpace c) = true)
    (h2 : l.getLast?.all (fun c => !isPySpace c) = true) :
    pyStrip l = l := by
  unfold pyStrip
  have hd : l.dropWhile isPySpace = l := by
    cases l with
    | nil => rfl
    | cons a t =>
      simp only [List.head?_cons, Option.all_some, Bool.not_eq_true'] at h1
      simp [List.dropWhile_cons, h1]
  rw [hd]
  have hrev : l.reverse.dropWhile isPySpace = l.reverse := by
    cases hr : l.reverse with
    | nil => rfl
    | cons a t =>
      have : l.getLast? = some a := by
        rw [← List.head?_reverse, hr, List.head?_cons]
      rw [this] at h2
      simp only [Option.all_some, Bool.not_eq_true'] at h2
      simp [List.dropWhile_cons, h2]
  rw [hrev, List.reverse_reverse]

theorem head_take_eq {l : List Char} :
    (l.take 50).head? = if l.isEmpty then none else l.head? := by
  cases l with
  | nil => rfl
  | cons a t => simp [List.take_succ_cons]

/-- Applying `dropWhile p` never leaves an element satisfying `p` at the head. -/
theorem dropWhile_head_not (p : Char → Bool) (l : List Char) :
    (l.dropWhile p).head?.all (fun c => !p c) = true := by
  induction l with
  | nil => rfl
  | cons a t ih =>
    rw [List.dropWhile_cons]
    cases hpa : p a with
    | true => simpa [hpa] using ih
    | false => simp [hpa]

/-- The head of `pyStrip l` is never whitespace. -/
theorem pyStrip_head_not_space (l : List Char) :
    (pyStrip l).head?.all (fun c => !isPySpace c) = true := by
  have hpre : pyStrip l <+: l.dropWhile isPySpace := by
    unfold pyStrip
    have hsuf : (l.dropWhile isPySpace).reverse.dropWhile isPySpace <:+
        (l.dropWhile isPySpace).reverse := List.dropWhile_suffix _
    obtain ⟨r, hr⟩ := hsuf
    refine ⟨r.reverse, ?_⟩
    have := congrArg List.reverse hr
    simpa using this
  cases hw : pyStrip l with
  | nil => rfl
  | cons a t =>
    rw [hw] at hpre
    obtain ⟨r, hr⟩ := hpre
    have hda : (l.dropWhile isPySpace).head? = some a := by
      rw [← hr]; rfl
    have := dropWhile_head_not isPySpace l
    rw [hda] at this
    simpa using this

/-- The two sanitizers are the same function (used for C3 and C9). -/
theorem sanitize_fm_eq_dl (s : String) :
    FileManager.sanitize_filename s = Downloader.sanitize_filename s := rfl

/-- When the sanitized output does not end in whitespace, a second
application of the sanitizer is the identity. -/
theorem sanitize_idem_of_last_not_space (s : String)
    (h : (Downloader.sanitize_filename s).data.getLast?.all
      (fun c => !isPySpace c) = true) :
    Downloader.sanitize_filename (Downloader.sanitize_filename s) =
      Downloader.sanitize_filename s := by
  have hfilter : (Downloader.sanitize_filename s).data.filter (fun c => !badChar c)
      = (Downloader.sanitize_filename s).data :=
    List.filter_eq_self.mpr (fun c hc => by simp [sanitize_no_badChar s c hc])
  have hhead : (Downloader.sanitize_filename s).data.head?.all
      (fun c => !isPySpace c) = true := by
    show ((pyStrip (s.data.filter fun c => !badChar c)).take 50).head?.all
      (fun c => !isPySpace c) = true
    rw [head_take_eq]
    cases he : (pyStrip (s.data.filter fun c => !badChar c)).isEmpty
    · simpa [he] using pyStrip_head_not_space (s.data.filter fun c => !badChar c)
    · simp [he]
  have hstrip : pyStrip (Downloader.sanitize_filename s).data
      = (Downloader.sanitize_filename s).data := pyStrip_eq_self hhead h
  have htake : ((Downloader.sanitize_filename s).data).take 50
      = (Downloader.sanitize_filename s).data :=
    List.take_of_length_le (sanitize_length_le s)
  show String.mk ((pyStrip ((Downloader.sanitize_filename s).data.filter
    fun c => !badChar c)).take 50) = Downloader.sanitize_filename s
  rw [hfilter, hstrip, htake]

/-- Claim C3 (amended).  For every string `s` the sanitized output contains
none of the characters `< > : " / \ | ? *` and has length at most 50; and
the sanitizer is idempotent at `s` whenever its output does not end in
whitespace (the 50-character truncation can expose trailing whitespace that
a second application would strip, so unconditional idempotence fails). -/
theorem sanitize_filename_props_c3 (s : String) :
    (∀ c ∈ (FileManager.sanitize_filename s).data, badChar c = false) ∧
    (FileManager.sanitize_filename s).length ≤ 50 ∧
    ((FileManager.sanitize_filename s).data.getLast?.all
        (fun c => !isPySpace c) = true →
      FileManager.sanitize_filename (FileManager.sanitize_filename s) =
        FileManager.sanitize_filename s) := by
  refine ⟨?_, ?_, ?_⟩
  · intro c hc
    exact sanitize_no_badChar s c (by rw [← sanitize_fm_eq_dl]; exact hc)
  · rw [sanitize_fm_eq_dl]; exact sanitize_length_le s
  · intro h
    rw [sanitize_fm_eq_dl, sanitize_fm_eq_dl,
      sanitize_idem_of_last_not_space s (by rw [← sanitize_fm_eq_dl]; exact h)]

/-- Witness for C3's amended theorem at the concrete input `" a<b "`. -/
theorem sanitize_filename_props_c3_witness :
    FileManager.sanitize_filename (FileManager.sanitize_filename " a<b ") =
      FileManager.sanitize_filename " a<b " :=
  (sanitize_filename_props_c3 " a<b ").2.2 (by decide)

/-- Claim C3, counterexample to idempotence as stated: on a 51-character
input whose 50th character is a space (49 `a`s, a space, then `b`),
sanitizing once yields 49 `a`s followed by a trailing space, and sanitizing
twice strips that space, so the two results differ. -/
theorem sanitize_not_idempotent_c3 :
    FileManager.sanitize_filename
        (FileManager.sanitize_filename
          "aaaaaaaaaaaaaaaaaaaaaaaaaaaaaaaaaaaaaaaaaaaaaaaaa b") ≠
      FileManager.sanitize_filename
        "aaaaaaaaaaaaaaaaaaaaaaaaaaaaaaaaaaaaaaaaaaaaaaaaa b" := by
  decide

/-! ### File-system model

The download directory is a list of `(name, size)` records.  `glob`'s
patterns `"<base>.*"` and `"<base>.audio.*"` reduce to name-starts-with
checks; `Path.suffix`, substring tests and `st_size` are modelled below. -/

structure FileRec where
  name : String
  size : Nat
deriving DecidableEq, BEq

/-- Boolean substring test (`needle in haystack` on Python strings). -/
def containsSub (needle : List Char) : List Char → Bool
  | [] => needle.isEmpty
  | c :: rest => needle.isPrefixOf (c :: rest) || containsSub needle rest

/-- Model of `pathlib.Path.suffix`: the part of the name from the last dot on,
empty when the dot is leading, trailing or absent. -/
def pathSuffix (name : List Char) : List Char :=
  match (name.reverse.findIdx? (fun c => c == '.')).map
      (fun j => name.length - 1 - j) with
  | some i => if 0 < i && i + 1 < name.length then name.drop i else []
  | none => []

/-- The suffixes both detectors exclude
(`[".json", ".srt", ".vtt", ".part", ".ytdl"]`). -/
def metaSuffixes : List (List Char) :=
  [".json".data, ".srt".data, ".vtt".data, ".part".data, ".ytdl".data]

/-- Python `max(candidates, key=lambda p: p.stat().st_size)` guarded by a
non-emptiness check: the first record of maximal size, `none` on `[]`. -/
def maxBySize (l : List FileRec) : Option FileRec :=
  l.foldl (fun acc f =>
    match acc with
    | none => some f
    | some g => if g.size < f.size then some f else some g) none

/-! ### `FileManager.detect_files` (utils/file_manager.py lines 62-127) -/

namespace FileManager

def detect_files (fs : List FileRec) (filename_base : String) :
    Option FileRec × Option String × Option FileRec :=
  let candidates := fs.filter
    (fun f => (filename_base ++ ".").data.isPrefixOf f.name.data)
  let video_candidates := candidates.filter (fun f =>
    !(metaSuffixes.contains (pathSuffix f.name.data)) &&
    !(containsSub ".part".data f.name.data) &&
    !(containsSub ".audio.".data f.name.data) &&
    1024 < f.size)
  let found_file := maxBySize video_candidates
  let actual_ext := found_file.map
    (fun f => String.mk ((pathSuffix f.name.data).dropWhile (fun c => c == '.')))
  let audio_candidates := fs.filter
    (fun f => (filename_base ++ ".audio.").data.isPrefixOf f.name.data)
  let valid_audio := audio_candidates.filter (fun f =>
    !(metaSuffixes.contains (pathSuffix f.name.data)) &&
    !(containsSub ".part".data f.name.data) &&
    1024 < f.size)
  let orphan_audio_file :=
    match maxBySize valid_audio, found_file with
    | some a, _ => some a
    | none, some ff =>
      maxBySize (candidates.filter (fun f =>
        !(f == ff) &&
        !(metaSuffixes.contains (pathSuffix f.name.data)) &&
        !(containsSub ".part".data f.name.data) &&
        1024 < f.size))
    | none, none => none
  (found_file, actual_ext, orphan_audio_file)

end FileManager

/-! ### `Downloader._detect_files` (core/downloader.py lines 779-851);
same logic as `FileManager.detect_files`, re-implemented in the source
modulo console output. -/

namespace Downloader

def detect_files (fs : List FileRec) (filename_base : String) :
    Option FileRec × Option String × Option FileRec :=
  let candidates := fs.filter
    (fun f => (filename_base ++ ".").data.isPrefixOf f.name.data)
  let video_candidates := candidates.filter (fun f =>
    !(metaSuffixes.contains (pathSuffix f.name.data)) &&
    !(containsSub ".part".data f.name.data) &&
    !(containsSub ".audio.".data f.name.data) &&
    1024 < f.size)
  let found_file := maxBySize video_candidates
  let actual_ext := found_file.map
    (fun f => String.mk ((pathSuffix f.name.data).dropWhile (fun c => c == '.')))
  let audio_candidates := fs.filter
    (fun f => (filename_base ++ ".audio.").data.isPrefixOf f.name.data)
  let valid_audio := audio_candidates.filter (fun f =>
    !(metaSuffixes.contains (pathSuffix f.name.data)) &&
    !(containsSub ".part".data f.name.data) &&
    1024 < f.size)
  let orphan_audio_file :=
    match maxBySize valid_audio, found_file with
    | some a, _ => some a
    | none, some ff =>
      maxBySize (candidates.filter (fun f =>
        !(f == ff) &&
        !(metaSuffixes.contains (pathSuffix f.name.data)) &&
        !(containsSub ".part".data f.name.data) &&
        1024 < f.size))
    | none, none => none
  (found_file, actual_ext, orphan_audio_file)

end Downloader

/-- Claim C8: with exactly `movie.mp4` (500 KB), `movie.audio.m4a` (50 KB)
and `movie.json` (1 KB) on disk, `detect_files "movie"` returns the triple
(`movie.mp4`, `"mp4"`, `movie.audio.m4a`): the largest qualifying non-audio
file over 1 KiB is the main file, its extension the actual extension, and
the largest qualifying `<base>.audio.*` file the orphan audio file. -/
theorem detect_files_picks_largest_c8 :
    FileManager.detect_files
        [⟨"movie.mp4", 512000⟩, ⟨"movie.audio.m4a", 51200⟩,
         ⟨"movie.json", 1024⟩] "movie" =
      (some ⟨"movie.mp4", 512000⟩, some "mp4",
        some ⟨"movie.audio.m4a", 51200⟩) := by
  decide

/-- Claim C9: the sanitization and detection helpers duplicated between
`FileManager` and `Downloader` are extensionally equal. -/
theorem duplicated_helpers_equal_c9 :
    (∀ s : String,
      FileManager.sanitize_filename s = Downloader.sanitize_filename s) ∧
    (∀ (fs : List FileRec) (base : String),
      FileManager.detect_files fs base = Downloader.detect_files fs base) :=
  ⟨fun _ => rfl, fun _ _ => rfl⟩

/-! ### `CaptureManager` (server/app.py lines 83-222)

A JSON payload is an association list of string keys to string values;
`CapturedItem.timestamp` is not modelled (never read by any claim), locking
is modelled by atomic state transitions, and `threading.Event.set()` by the
`eventSet` flag. -/

namespace CaptureManager

structure CapturedItem where
  url : String
  media_type : String
  source : String
  title : Option String
  page : Option String
  cookies : Option String
  agent : Option String
  referrer : Option String
deriving DecidableEq

abbrev Payload := List (String × String)

/-- Python `data.get(key)`. -/
def dget (data : Payload) (k : String) : Option String :=
  (data.find? (fun kv => kv.1 == k)).map (fun kv => kv.2)

/-- Python `key in data`. -/
def dcontains (data : Payload) (k : String) : Bool :=
  (data.find? (fun kv => kv.1 == k)).isSome

/-- The set of "video-like" types (app.py lines 103-109). -/
def VIDEO_TYPES : List String :=
  ["video", "manifest_dash", "manifest_hls", "stream_api", "license"]

def MAX_ITEMS : Nat := 2000

/-- Method `_prune_list` (app.py lines 111-118): drop the oldest
`int(2000 * 0.1) = 200` items once the list exceeds 2000. -/
def prune_list (l : List CapturedItem) : List CapturedItem :=
  if MAX_ITEMS < l.length then l.drop 200 else l

structure State where
  videos : List CapturedItem
  subs : List CapturedItem
  eventSet : Bool
deriving DecidableEq

def initState : State := ⟨[], [], false⟩

/-- The `CapturedItem.__init__` call inside `add_item`. -/
def mkItem (data : Payload) : CapturedItem :=
  { url := (dget data "url").getD ""
  , media_type := (dget data "type").getD ""
  , source := (dget data "source").getD "Unknown"
  , title := dget data "title"
  , page := dget data "page"
  , cookies := dget data "cookies"
  , agent := dget data "agent"
  , referrer := dget data "referrer" }

/-- Method `add_item` (app.py lines 120-168): validate presence of `url`/`type`,
group by media type, reject duplicates by URL, append + prune on success,
and set the event only when something was added. -/
def add_item (data : Payload) (st : State) : Bool × State :=
  if !(dcontains data "url") || !(dcontains data "type") then (false, st)
  else if VIDEO_TYPES.contains (mkItem data).media_type then
    if st.videos.any (fun v => v.url == (mkItem data).url) then (false, st)
    else
      (true, { st with videos := prune_list (st.videos ++ [mkItem data]),
                       eventSet := true })
  else if (mkItem data).media_type == "sub" then
    if st.subs.any (fun s => s.url == (mkItem data).url) then (false, st)
    else
      (true, { st with subs := prune_list (st.subs ++ [mkItem data]),
                       eventSet := true })
  else (false, st)

/-- Method `get_snapshot` (app.py lines 199-212), minus the dict serialization. -/
def get_snapshot (st : State) : List CapturedItem × List CapturedItem :=
  (st.videos, st.subs)

theorem get_snapshot_fst (st : State) : (get_snapshot st).1 = st.videos := rfl

/-- The payload a browser agent posts for a plain video capture. -/
def videoPayload (u : String) : Payload := [("url", u), ("type", "video")]

/-- The item `add_item` builds from `videoPayload u`. -/
def vitem (u : String) : CapturedItem :=
  ⟨u, "video", "Unknown", none, none, none, none, none⟩

/-- Folding `add_item` over the payloads `f 0, f 1, …, f (k-1)`. -/
def addSeq (f : Nat → Payload) : Nat → State
  | 0 => initState
  | k + 1 => (add_item (f k) (addSeq f k)).2

theorem add_item_video (u : String) (st : State) :
    add_item (videoPayload u) st =
      if st.videos.any (fun v => v.url == u) then (false, st)
      else (true, { st with videos := prune_list (st.videos ++ [vitem u]),
                            eventSet := true }) := rfl

/-- A failed `add_item` leaves the state untouched. -/
theorem add_item_false_unchanged (data : Payload) (st : State)
    (h : (add_item data st).1 = false) : (add_item data st).2 = st := by
  unfold add_item at h ⊢
  by_cases h1 : (!dcontains data "url" || !dcontains data "type") = true
  · rw [if_pos h1]
  · rw [if_neg h1] at h ⊢
    by_cases h2 : VIDEO_TYPES.contains (mkItem data).media_type = true
    · rw [if_pos h2] at h ⊢
      by_cases h3 : (st.videos.any fun v => v.url == (mkItem data).url) = true
      · rw [if_pos h3]
      · rw [if_neg h3] at h; simp at h
    · rw [if_neg h2] at h ⊢
      by_cases h4 : ((mkItem data).media_type == "sub") = true
      · rw [if_pos h4] at h ⊢
        by_cases h5 : (st.subs.any fun s => s.url == (mkItem data).url) = true
        · rw [if_pos h5]
        · rw [if_neg h5] at h; simp at h
      · rw [if_neg h4]

/-- Offset of the retained segment after `k` inserts of fresh video items:
one prune (of 200) fires at the 2001st insert, and no second prune can fire
before the 2401st. -/
def dOff (k : Nat) : Nat := if k ≤ 2000 then 0 else 200

theorem drop_range' (m a n : Nat) :
    (List.range' a n).drop m = List.range' (a + m) (n - m) := by
  induction m generalizing a n with
  | zero => simp
  | succ m ih =>
    cases n with
    | zero => simp
    | succ n =>
      rw [List.range'_succ, List.drop_succ_cons, ih (a + 1) n]
      congr 1 <;> omega

/-- Invariant: after `k ≤ 2200` inserts of distinct fresh video URLs the
video group is exactly the mapped segment `[dOff k, k)` of the inputs. -/
theorem addSeq_video_invariant (f : Nat → String) (hf : Function.Injective f) :
    ∀ k, k ≤ 2200 →
      (addSeq (fun i => videoPayload (f i)) k).videos
        = (List.range' (dOff k) (k - dOff k)).map (fun i => vitem (f i)) := by
  intro k
  induction k with
  | zero => intro _; simp [addSeq, initState, dOff]
  | succ k ih =>
    intro hk1
    have IH := ih (by omega)
    have hdle : dOff k ≤ k := by unfold dOff; split <;> omega
    show (add_item (videoPayload (f k)) (addSeq (fun i => videoPayload (f i)) k)).2.videos = _
    rw [add_item_video]
    have hany : ((addSeq (fun i => videoPayload (f i)) k).videos.any
        (fun v => v.url == f k)) = false := by
      rw [IH, List.any_eq_false]
      intro v hv
      obtain ⟨i, hi, rfl⟩ := List.mem_map.mp hv
      have hir := List.mem_range'_1.mp hi
      have hlt : i < k := by omega
      simp only [vitem, beq_iff_eq]
      intro he
      exact absurd (hf he) (Nat.ne_of_lt hlt)
    simp only [hany]
    rw [if_neg (by simp)]
    rw [IH]
    have hsingle : [vitem (f k)] = List.map (fun i => vitem (f i)) [k] := rfl
    by_cases hc1 : k + 1 ≤ 2000
    · -- no prune fires
      have hd0 : dOff k = 0 := by unfold dOff; split <;> omega
      have hd1 : dOff (k + 1) = 0 := by unfold dOff; split <;> omega
      rw [hd0, hd1, Nat.sub_zero, Nat.sub_zero, hsingle, ← List.map_append]
      have hseg : List.range' 0 k ++ [k] = List.range' 0 (k + 1) := by
        have h2 := List.range'_1_concat 0 k
        simpa using h2.symm
      rw [hseg]
      unfold prune_list
      rw [if_neg (by simp [MAX_ITEMS]; omega)]
    · by_cases hc2 : k + 1 = 2001
      · -- the 2001st insert triggers the prune of the oldest 200
        have hd0 : dOff k = 0 := by unfold dOff; split <;> omega
        have hd1 : dOff (k + 1) = 200 := by unfold dOff; split <;> omega
        rw [hd0, hd1, Nat.sub_zero, hsingle, ← List.map_append]
        have hseg : List.range' 0 k ++ [k] = List.range' 0 (k + 1) := by
          have h2 := List.range'_1_concat 0 k
          simpa using h2.symm
        rw [hseg]
        unfold prune_list
        rw [if_pos (by simp [MAX_ITEMS]; omega)]
        rw [← List.map_drop, drop_range', Nat.zero_add]
      · -- a prune already happened; this insert just appends
        have hd0 : dOff k = 200 := by unfold dOff; split <;> omega
        have hd1 : dOff (k + 1) = 200 := by unfold dOff; split <;> omega
        rw [hd0, hd1, hsingle, ← List.map_append]
        have hseg : List.range' 200 (k - 200) ++ [k] = List.range' 200 (k + 1 - 200) := by
          have h2 := List.range'_1_concat 200 (k - 200)
          have e1 : 200 + (k - 200) = k := by omega
          have e2 : (k - 200) + 1 = k + 1 - 200 := by omega
          rw [e1, e2] at h2
          exact h2.symm
        rw [hseg]
        unfold prune_list
        rw [if_neg (by simp [MAX_ITEMS]; omega)]

/-- Claim C4: starting from an empty manager, 2,200 distinct video inserts
leave the video group at exactly 2,000 items; the 200 oldest are absent
from a snapshot; and in general a successful insert that pushes its group
— video-like or subtitle — over 2,000 drops that group's oldest 200 from
the front. -/
theorem capture_retention_c4 (f : Nat → String) (hf : Function.Injective f) :
    ((addSeq (fun i => videoPayload (f i)) 2200).videos.length = 2000) ∧
    (∀ i, i < 200 →
      ∀ v, v ∈ (get_snapshot (addSeq (fun i => videoPayload (f i)) 2200)).1 →
        v.url ≠ f i) ∧
    (∀ (st : State) (data : Payload),
      (add_item data st).1 = true →
      VIDEO_TYPES.contains (mkItem data).media_type = true →
      ((add_item data st).2).videos =
        if 2000 < st.videos.length + 1 then
          (st.videos ++ [mkItem data]).drop 200
        else st.videos ++ [mkItem data]) ∧
    (∀ (st : State) (data : Payload),
      (add_item data st).1 = true →
      ((mkItem data).media_type == "sub") = true →
      ((add_item data st).2).subs =
        if 2000 < st.subs.length + 1 then
          (st.subs ++ [mkItem data]).drop 200
        else st.subs ++ [mkItem data]) := by
  have hinv := addSeq_video_invariant f hf 2200 (by omega)
  have hd : dOff 2200 = 200 := by decide
  refine ⟨?_, ?_, ?_, ?_⟩
  · rw [hinv, hd]
    simp
  · intro i hi v hv
    rw [get_snapshot_fst, hinv, hd] at hv
    obtain ⟨j, hj, rfl⟩ := List.mem_map.mp hv
    have hjr := List.mem_range'_1.mp hj
    show f j ≠ f i
    intro he
    have : j = i := hf he
    omega
  · intro st data hadd htype
    unfold add_item at hadd ⊢
    by_cases h1 : (!dcontains data "url" || !dcontains data "type") = true
    · rw [if_pos h1] at hadd; simp at hadd
    · rw [if_neg h1] at hadd ⊢
      rw [if_pos htype] at hadd ⊢
      by_cases h3 : (st.videos.any fun v => v.url == (mkItem data).url) = true
      · rw [if_pos h3] at hadd; simp at hadd
      · rw [if_neg h3]
        show prune_list (st.videos ++ [mkItem data]) = _
        unfold prune_list MAX_ITEMS
        simp
  · intro st data hadd hsub
    have hmt : (mkItem data).media_type = "sub" := by simpa using hsub
    have hnv : VIDEO_TYPES.contains (mkItem data).media_type = false := by
      rw [hmt]; decide
    unfold add_item at hadd ⊢
    by_cases h1 : (!dcontains data "url" || !dcontains data "type") = true
    · rw [if_pos h1] at hadd; simp at hadd
    · rw [if_neg h1] at hadd ⊢
      rw [if_neg (by rw [hnv]; simp)] at hadd ⊢
      rw [if_pos hsub] at hadd ⊢
      by_cases h5 : (st.subs.any fun s => s.url == (mkItem data).url) = true
      · rw [if_pos h5] at hadd; simp at hadd
      · rw [if_neg h5]
        show prune_list (st.subs ++ [mkItem data]) = _
        unfold prune_list MAX_ITEMS
        simp

/-- The URLs `"a"`, `"aa"`, `"aaa"`, … — an injective family used to
witness C4. -/
def urep (i : Nat) : String := String.mk (List.replicate i 'a')

theorem urep_injective : Function.Injective urep := by
  intro i j h
  have hlen : (urep i).data.length = (urep j).data.length := by rw [h]
  simpa [urep] using hlen

/-- Witness for C4 at the concrete injective family `urep`. -/
theorem capture_retention_c4_witness :
    (addSeq (fun i => videoPayload (urep i)) 2200).videos.length = 2000 :=
  (capture_retention_c4 urep urep_injective).1

/-- Claim C5: `add_item` preserves URL-uniqueness inside the video group
and inside the subtitle group (the groups are independent parts of the
state), and inserting the same video URL twice leaves the video group at
size 1, the second call returning false with no mutation. -/
theorem capture_dedup_c5 :
    (∀ (data : Payload) (st : State),
      ((st.videos.map CapturedItem.url).Nodup →
        (((add_item data st).2).videos.map CapturedItem.url).Nodup) ∧
      ((st.subs.map CapturedItem.url).Nodup →
        (((add_item data st).2).subs.map CapturedItem.url).Nodup)) ∧
    (add_item (videoPayload "u") (add_item (videoPayload "u") initState).2 =
      (false, (add_item (videoPayload "u") initState).2) ∧
     ((add_item (videoPayload "u") initState).2).videos.length = 1) := by
  have hpres : ∀ (item : CapturedItem) (l : List CapturedItem),
      (l.any fun v => v.url == item.url) = false →
      (l.map CapturedItem.url).Nodup →
      ((prune_list (l ++ [item])).map CapturedItem.url).Nodup := by
    intro item l hany hnd
    have hnotin : item.url ∉ l.map CapturedItem.url := by
      intro hmem
      obtain ⟨v, hv, he⟩ := List.mem_map.mp hmem
      have := List.any_eq_false.mp hany v hv
      exact this (by simp [he])
    have hcat : ((l ++ [item]).map CapturedItem.url).Nodup := by
      rw [List.map_append]
      have := List.Nodup.concat hnotin hnd
      rw [List.concat_eq_append] at this
      exact this
    unfold prune_list
    split
    · rw [List.map_drop]
      exact List.Nodup.sublist (List.drop_sublist 200 _) hcat
    · exact hcat
  refine ⟨?_, by decide⟩
  intro data st
  constructor
  · intro hnd
    unfold add_item
    by_cases h1 : (!dcontains data "url" || !dcontains data "type") = true
    · rw [if_pos h1]; exact hnd
    · rw [if_neg h1]
      by_cases h2 : VIDEO_TYPES.contains (mkItem data).media_type = true
      · rw [if_pos h2]
        by_cases h3 : (st.videos.any fun v => v.url == (mkItem data).url) = true
        · rw [if_pos h3]; exact hnd
        · rw [if_neg h3]
          exact hpres _ _ (by simpa using h3) hnd
      · rw [if_neg h2]
        by_cases h4 : ((mkItem data).media_type == "sub") = true
        · rw [if_pos h4]
          by_cases h5 : (st.subs.any fun s => s.url == (mkItem data).url) = true
          · rw [if_pos h5]; exact hnd
          · rw [if_neg h5]; exact hnd
        · rw [if_neg h4]; exact hnd
  · intro hnd
    unfold add_item
    by_cases h1 : (!dcontains data "url" || !dcontains data "type") = true
    · rw [if_pos h1]; exact hnd
    · rw [if_neg h1]
      by_cases h2 : VIDEO_TYPES.contains (mkItem data).media_type = true
      · rw [if_pos h2]
        by_cases h3 : (st.videos.any fun v => v.url == (mkItem data).url) = true
        · rw [if_pos h3]; exact hnd
        · rw [if_neg h3]; exact hnd
      · rw [if_neg h2]
        by_cases h4 : ((mkItem data).media_type == "sub") = true
        · rw [if_pos h4]
          by_cases h5 : (st.subs.any fun s => s.url == (mkItem data).url) = true
          · rw [if_pos h5]; exact hnd
          · rw [if_neg h5]
            exact hpres _ _ (by simpa using h5) hnd
        · rw [if_neg h4]; exact hnd

/-- Witness for C5 at a concrete insert into the empty manager. -/
theorem capture_dedup_c5_witness :
    (((add_item (videoPayload "w") initState).2).videos.map
      CapturedItem.url).Nodup :=
  (capture_dedup_c5.1 (videoPayload "w") initState).1 (by decide)

/-- Claim C10: a payload carrying both `url` and `type` whose type is
neither video-like nor `sub` is silently dropped: `add_item` returns false
and the state (both groups and the event flag) is unchanged. -/
theorem add_item_unknown_type_c10 (data : Payload) (st : State) (t : String)
    (hu : dcontains data "url" = true)
    (ht : dget data "type" = some t)
    (hv : VIDEO_TYPES.contains t = false)
    (hs : t ≠ "sub") :
    add_item data st = (false, st) := by
  have htc : dcontains data "type" = true := by
    unfold dcontains
    unfold dget at ht
    cases hfind : data.find? (fun kv => kv.1 == "type") with
    | none => rw [hfind] at ht; simp at ht
    | some kv => simp
  have hmt : (mkItem data).media_type = t := by simp [mkItem, ht]
  unfold add_item
  rw [if_neg (by simp [hu, htc])]
  rw [if_neg (by rw [hmt, hv]; simp)]
  rw [if_neg (by rw [hmt]; simp [hs])]

/-- Witness for C10 with media type `image`. -/
theorem add_item_unknown_type_c10_witness :
    add_item [("url", "u"), ("type", "image")] initState =
      (false, initState) :=
  add_item_unknown_type_c10 [("url", "u"), ("type", "image")] initState
    "image" (by decide) (by decide) (by decide) (by decide)

end CaptureManager

/-! ### The `POST /snipe` route (server/app.py lines 304-319)

```python
data = request.json
if not data:
    return jsonify({"status": "error", "msg": "No data"}), 400
added = self.capture_manager.add_item(data)
if added:
    return jsonify({"status": "received"}), 200
else:
    return jsonify({"status": "duplicate_or_invalid"}), 200
```

`request.json` is modelled as `Option Payload`: `none` for an absent or
unparseable body.  Python's `if not data` is also true for a parsed but
*empty* JSON object, which the model renders as `some []`. -/

namespace VantaServer

open CaptureManager

inductive RespBody where
  | errorNoData
  | received
  | duplicateOrInvalid
deriving DecidableEq

structure Resp where
  status : Nat
  body : RespBody
deriving DecidableEq

def snipe (body : Option Payload) (st : State) : Resp × State :=
  match body with
  | none => (⟨400, RespBody.errorNoData⟩, st)
  | some data =>
    if data.isEmpty then (⟨400, RespBody.errorNoData⟩, st)
    else
      let r := add_item data st
      if r.1 then (⟨200, RespBody.received⟩, r.2)
      else (⟨200, RespBody.duplicateOrInvalid⟩, r.2)

theorem snipe_some (d : Payload) (st : State) :
    snipe (some d) st =
      if d.isEmpty then (⟨400, RespBody.errorNoData⟩, st)
      else if (add_item d st).1 then
        (⟨200, RespBody.received⟩, (add_item d st).2)
      else (⟨200, RespBody.duplicateOrInvalid⟩, (add_item d st).2) := rfl

/-- Claim C6, counterexample: the empty JSON object `{}` is a present,
parseable body that is missing `url`/`type`, so by the claim it should get
HTTP 200 `duplicate_or_invalid`; the code's falsy-check sends HTTP 400
`No data` instead. -/
theorem snipe_empty_object_c6_cex :
    (snipe (some []) CaptureManager.initState).1 =
      ⟨400, RespBody.errorNoData⟩ ∧
    (snipe (some []) CaptureManager.initState).1 ≠
      ⟨200, RespBody.duplicateOrInvalid⟩ ∧
    (CaptureManager.add_item [] CaptureManager.initState).1 = false := by
  decide

/-- Claim C6 (amended): an absent, unparseable, or empty-object (falsy)
body yields HTTP 400 `No data`; a non-empty body that is added as a new
item yields HTTP 200 `received`; any other non-empty body yields HTTP 200
`duplicate_or_invalid` and the store is left unchanged. -/
theorem snipe_spec_c6 (body : Option Payload) (st : State) :
    (body = none → snipe body st = (⟨400, RespBody.errorNoData⟩, st)) ∧
    (∀ d, body = some d → d = [] →
      snipe body st = (⟨400, RespBody.errorNoData⟩, st)) ∧
    (∀ d, body = some d → d ≠ [] → (add_item d st).1 = true →
      snipe body st = (⟨200, RespBody.received⟩, (add_item d st).2)) ∧
    (∀ d, body = some d → d ≠ [] → (add_item d st).1 = false →
      snipe body st = (⟨200, RespBody.duplicateOrInvalid⟩, st)) := by
  refine ⟨?_, ?_, ?_, ?_⟩
  · intro h; rw [h]; rfl
  · intro d hb hd
    rw [hb, hd]; rfl
  · intro d hb hd hadd
    rw [hb, snipe_some]
    rw [if_neg (by simp [List.isEmpty_iff, hd])]
    rw [if_pos hadd]
  · intro d hb hd hadd
    rw [hb, snipe_some]
    rw [if_neg (by simp [List.isEmpty_iff, hd])]
    rw [if_neg (by simp [hadd])]
    rw [add_item_false_unchanged d st hadd]

/-- Witness for C6's amended theorem: a fresh video capture is received. -/
theorem snipe_spec_c6_witness :
    snipe (some [("url", "u"), ("type", "video")]) CaptureManager.initState =
      (⟨200, RespBody.received⟩,
        (CaptureManager.add_item [("url", "u"), ("type", "video")]
          CaptureManager.initState).2) :=
  (snipe_spec_c6 (some [("url", "u"), ("type", "video")])
      CaptureManager.initState).2.2.1
    [("url", "u"), ("type", "video")] rfl (by decide) (by decide)

end VantaServer

/-! ### `Downloader.download_stream` (core/downloader.py lines 580-739)

The yt-dlp engine invocations (`_start_download`) are modelled by an
oracle `dl : Pass → Bool` giving the success of each pass; the network and
the option dictionaries do not affect the claims (which concern the
reported outcome and the merge trigger).  `sub` is the subtitle-selection
dict (`{"type": ..., "lang": ..., "url": ...}`), `fmt` the chosen video
format dict, `audio_id` the chosen audio format id; Python truthiness of
those arguments is modelled by `Option`. -/

namespace Downloader

structure SubSel where
  stype : String
  lang : String
  url : String
deriving DecidableEq

structure FormatSel where
  format_id : String
deriving DecidableEq

/-- The three distinct engine invocations `download_stream` can make. -/
inductive Pass where
  | video
  | audio
  | single
deriving DecidableEq

/-- What `download_stream` did: pass results, the reported `success`,
the detection triple and whether `StreamMerger.process_external_sub_sync`
was invoked. -/
structure Outcome where
  success_video : Bool
  success_audio : Bool
  success : Bool
  found_file : Option FileRec
  actual_ext : Option String
  orphan_audio_file : Option FileRec
  merge_invoked : Bool
deriving DecidableEq

/-- Line 598: `requested_ext = "mkv" if embed_mode == "embed_mkv" else
"mp4"` — computed by the source and then never read again. -/
def requested_ext (embed_mode : String) : String :=
  if embed_mode == "embed_mkv" then "mkv" else "mp4"

/-- Condition `sub and sub["type"] == "external"` (lines 725-727). -/
def isExternalSub (sub : Option SubSel) : Bool :=
  match sub with
  | some s => s.stype == "external"
  | none => false

/-- Lines 653-739.  Split mode (`not force_mode and fmt and audio_id`)
runs a video pass then an audio pass and reports `success =
success_video`; otherwise a single pass runs.  On success the download
directory is scanned (`_detect_files`) and the merger is invoked exactly
when a main file was found and an external subtitle was requested or an
orphan audio file was detected. -/
def download_stream (force_mode : Bool) (fmt : Option FormatSel)
    (audio_id : Option String) (sub : Option SubSel) (embed_mode : String)
    (filename : String) (dl : Pass → Bool) (fs : List FileRec) : Outcome :=
  -- line 598: computed, never used below (see C2)
  let _requested_ext := requested_ext embed_mode
  let split := !force_mode && fmt.isSome && audio_id.isSome
  let success_video := if split then dl Pass.video else false
  let success_audio := if split then dl Pass.audio else false
  -- line 694: `success = success_video` (audio result deliberately unused)
  let success := if split then success_video else dl Pass.single
  let det := if success then detect_files fs filename else (none, none, none)
  let found_file := det.1
  let actual_ext := det.2.1
  let orphan_audio_file := det.2.2
  -- lines 716-737: merge check only runs when `success` and a main file
  let should_merge := success && found_file.isSome &&
    (isExternalSub sub || orphan_audio_file.isSome)
  ⟨success_video, success_audio, success, found_file, actual_ext,
    orphan_audio_file, should_merge⟩

/-- Claim C1, counterexample: in manual split mode (not forced, video
format `137` and audio id `140` chosen), with the video pass succeeding
and the audio pass failing, the job is still reported as an overall
success. -/
theorem download_stream_audio_fail_c1_cex :
    (download_stream false (some ⟨"137"⟩) (some "140") none "embed_none"
        "movie" (fun p => !(p == Pass.audio)) []).success = true ∧
    (download_stream false (some ⟨"137"⟩) (some "140") none "embed_none"
        "movie" (fun p => !(p == Pass.audio)) []).success_audio = false := by
  decide

/-- Claim C1 (amended): in manual split mode the reported overall outcome
equals the video pass's result alone — an audio-pass failure does not make
the job fail (and a video-pass failure does, whatever the audio did). -/
theorem download_stream_success_c1 (fmt : FormatSel) (aid : String)
    (sub : Option SubSel) (embed_mode filename : String)
    (dl : Pass → Bool) (fs : List FileRec) :
    (download_stream false (some fmt) (some aid) sub embed_mode filename
        dl fs).success = dl Pass.video := by
  unfold download_stream
  simp

/-- Claim C2, counterexample: a successful forced download leaves
`movie.mp4` on disk while the embed mode demands MKV
(`requested_ext "embed_mkv" = "mkv"` mismatches the detected `"mp4"`),
yet with no external subtitle and no orphan audio the merger is not
invoked — the extension-mismatch disjunct of the claim does not exist in
the code (`requested_ext` is computed but never used). -/
theorem download_stream_no_ext_merge_c2_cex :
    (download_stream true none none none "embed_mkv" "movie"
        (fun _ => true) [⟨"movie.mp4", 512000⟩]).merge_invoked = false ∧
    (download_stream true none none none "embed_mkv" "movie"
        (fun _ => true) [⟨"movie.mp4", 512000⟩]).success = true ∧
    (download_stream true none none none "embed_mkv" "movie"
        (fun _ => true) [⟨"movie.mp4", 512000⟩]).found_file =
      some ⟨"movie.mp4", 512000⟩ ∧
    (download_stream true none none none "embed_mkv" "movie"
        (fun _ => true) [⟨"movie.mp4", 512000⟩]).actual_ext = some "mp4" ∧
    requested_ext "embed_mkv" = "mkv" := by
  decide

/-- Claim C2 (amended): after either strategy, the Stream Merger is
invoked iff the job succeeded, a main file was detected, and an external
subtitle was requested or an orphan audio file was detected; the container
implied by the embed mode plays no part. -/
theorem download_stream_merge_iff_c2 (force_mode : Bool)
    (fmt : Option FormatSel) (audio_id : Option String)
    (sub : Option SubSel) (embed_mode filename : String)
    (dl : Pass → Bool) (fs : List FileRec) :
    (download_stream force_mode fmt audio_id sub embed_mode filename
        dl fs).merge_invoked = true ↔
      ((download_stream force_mode fmt audio_id sub embed_mode filename
          dl fs).success = true ∧
        (download_stream force_mode fmt audio_id sub embed_mode filename
            dl fs).found_file.isSome = true ∧
        (isExternalSub sub = true ∨
          (download_stream force_mode fmt audio_id sub embed_mode filename
              dl fs).orphan_audio_file.isSome = true)) := by
  unfold download_stream
  simp [Bool.and_assoc]

end Downloader

/-! ### `create_cookie_file` (utils/cookies.py lines 15-73)

Only the written text matters to the claims, so the model produces the
file content as a string (the timestamped path, `chmod` and I/O errors are
not modelled). -/

namespace Cookies

/-- Python `cookie_str.split("; ")`: split on the exact two-character
separator, scanning left to right. -/
def splitSemi (acc : List Char) : List Char → List (List Char)
  | [] => [acc.reverse]
  | ';' :: ' ' :: rest => acc.reverse :: splitSemi [] rest
  | c :: rest => splitSemi (c :: acc) rest

/-- Python `cookie.split("=", 1)` guarded by `"=" in cookie`:
`none` when there is no `=`, otherwise the parts around the first `=`. -/
def splitFirstEq : List Char → Option (List Char × List Char)
  | [] => none
  | '=' :: rest => some ([], rest)
  | c :: rest =>
    match splitFirstEq rest with
    | some p => some (c :: p.1, p.2)
    | none => none

/-- The remainder of `hay` after the first occurrence of `needle`,
`none` when `needle` does not occur. -/
def afterSub (needle : List Char) : List Char → Option (List Char)
  | [] => if needle.isEmpty then some [] else none
  | c :: rest =>
    if needle.isPrefixOf (c :: rest) then some ((c :: rest).drop needle.length)
    else afterSub needle rest

/-- Modelled from the Python standard library: `urlparse(url).hostname`
for absolute URLs — the text after `"://"` up to the first of `/ ? #`,
keeping only the part after the last `@`, dropping any `:port`,
lowercased; `none` when the URL has no netloc. -/
def urlparse_hostname (url : String) : Option String :=
  match afterSub "://".data url.data with
  | none => none
  | some rest =>
    let netloc := rest.takeWhile
      (fun c => !(c == '/') && !(c == '?') && !(c == '#'))
    let afterAt := (netloc.reverse.takeWhile (fun c => !(c == '@'))).reverse
    let host := (afterAt.takeWhile (fun c => !(c == ':'))).map Char.toLower
    if host.isEmpty then none else some (String.mk host)

/-- The text `create_cookie_file` writes: two comment header lines, a
blank line, then one Netscape-format line per `name=value` pair. -/
def create_cookie_file_content (cookie_str : String) (url : String) : String :=
  let domain_name := urlparse_hostname url
  let cookie_domain : String :=
    match domain_name with
    | some d => if !(d.data.head? == some '.') then "." ++ d else d
    | none => "None"
  let headerPart : String :=
    "# Netscape HTTP Cookie File\n# This is a generated file! Do not edit.\n\n"
  let dataPart : String :=
    if cookie_str.data.isEmpty then ""
    else
      String.join ((splitSemi [] cookie_str.data).map (fun cookie =>
        match splitFirstEq cookie with
        | some nv =>
          cookie_domain ++ "\tTRUE\t/\tFALSE\t2147483647\t" ++
            String.mk nv.1 ++ "\t" ++ String.mk nv.2 ++ "\n"
        | none => ""))
  headerPart ++ dataPart

/-- Split a text into lines at newline characters. -/
def splitNl : List Char → List (List Char)
  | [] => [[]]
  | '\n' :: rest => [] :: splitNl rest
  | c :: rest =>
    match splitNl rest with
    | [] => [[c]]
    | h :: t => (c :: h) :: t

/-- The non-blank, non-comment lines of a generated cookie file. -/
def cookieDataLines (content : String) : List String :=
  ((splitNl content.data).filter
    (fun l => !l.isEmpty && !(l.head? == some '#'))).map String.mk

/-- Claim C7: for raw cookies `"a=1; b=2"` and URL
`https://example.com/x` the generated file has exactly two data lines, in
input order, each `domain .example.com, TRUE, /, FALSE, 2147483647`
followed by the name/value pair. -/
theorem cookie_file_c7 :
    cookieDataLines
        (create_cookie_file_content "a=1; b=2" "https://example.com/x") =
      [".example.com\tTRUE\t/\tFALSE\t2147483647\ta\t1",
       ".example.com\tTRUE\t/\tFALSE\t2147483647\tb\t2"] := by
  decide

end Cookies

end VantaEther
